import Mathlib

/-!
Shallow embedding of the email classification / response generation backend
(`backend.py`): the rule-based classifier (`EmailClassifier._determine_category`,
`_determine_priority`, `_generate_reasoning`, `_classify_rule_based`), the
model-call post-processing (`_classify_with_llama`, `_generate_with_llama`)
with the HTTP transport and the stdlib JSON parser abstracted as parameters,
and the template response builder (`ResponseGenerator._generate_template_response`).

Strings are embedded as `List Char`; Python dictionaries (insertion-ordered)
as association lists; Python substring containment (`k in text`) as
`containsSub`; Python `str.lower()` as a character-wise `Char.toLower` map
(all table keywords are ASCII); Python `max(d, key=d.get)` by its documented
semantics (first key attaining the maximum value) via an accumulating fold
that only replaces the current best on a strictly greater value.
-/

/-- Convert a Lean string literal into the `List Char` representation used
throughout this development. -/
def str (x : String) : List Char := x.data

/-- Boolean test that the first list starts the second (used by `containsSub`). -/
def leadsIn : List Char → List Char → Bool
  | [], _ => true
  | _ :: _, [] => false
  | a :: as, b :: bs => a == b && leadsIn as bs

/-- Python substring containment `needle in haystack`. -/
def containsSub (needle : List Char) : List Char → Bool
  | [] => leadsIn needle []
  | b :: bs => leadsIn needle (b :: bs) || containsSub needle bs

/-- Python `str.lower()` restricted to the ASCII range actually used. -/
def pyLower (l : List Char) : List Char := l.map Char.toLower

/-- `(subject + " " + body).lower()` as computed at the top of
`_determine_category`, `_determine_priority` and `_generate_reasoning`. -/
def emailText (subject body : List Char) : List Char :=
  pyLower (subject ++ str (" ") ++ body)

/-- The `categories` keyword table of `EmailClassifier._determine_category`,
in Python dict insertion order. -/
def categories : List (List Char × List (List Char)) :=
  [ (str ("technical_support"),
      [str ("error"), str ("bug"), str ("not working"), str ("broken"),
       str ("issue"), str ("problem"), str ("unable"), str ("cannot"),
       str ("can\x27t"), str ("reset"), str ("password"), str ("login"),
       str ("access")]),
    (str ("billing"),
      [str ("billing"), str ("charge"), str ("payment"), str ("refund"),
       str ("invoice"), str ("cost"), str ("price"), str ("pricing"),
       str ("charged")]),
    (str ("account"),
      [str ("account"), str ("verification"), str ("verify"), str ("blocked")]),
    (str ("integration"),
      [str ("api"), str ("integration"), str ("crm"), str ("third-party")]),
    (str ("general"),
      [str ("help"), str ("support"), str ("question"), str ("query"),
       str ("understand")]) ]

/-- `sum(1 for keyword in keywords if keyword in text)`. -/
def scoreOf (text : List Char) (keywords : List (List Char)) : Nat :=
  (keywords.filter (fun k => containsSub k text)).length

/-- The `scores` dict of `_determine_category`: each category paired with its
keyword-hit count, in table order. -/
def categoryScores (subject body : List Char) : List (List Char × Nat) :=
  categories.map (fun p => (p.1, scoreOf (emailText subject body) p.2))

/-- `max(scores.values())` (with 0 for the empty list; the table is nonempty). -/
def maxScore (scores : List (List Char × Nat)) : Nat :=
  scores.foldr (fun p m => max p.2 m) 0

/-- Accumulating pass of Python `max(scores, key=scores.get)`: the current
best key is replaced only on a strictly greater value, so the first key
attaining the maximum wins. -/
def goMax (best : List Char) (bestScore : Nat) : List (List Char × Nat) → List Char
  | [] => best
  | p :: rest => if bestScore < p.2 then goMax p.1 p.2 rest else goMax best bestScore rest

/-- Python `max(scores, key=scores.get)` over an association list. -/
def pyMaxByVal : List (List Char × Nat) → List Char
  | [] => []
  | p :: rest => goMax p.1 p.2 rest

/-- `EmailClassifier._determine_category`. -/
def determine_category (subject body : List Char) : List Char :=
  let scores := categoryScores subject body
  if 0 < maxScore scores then pyMaxByVal scores else str ("general")

/-- `high_priority_keywords` of `_determine_priority`, in declared order. -/
def high_priority_keywords : List (List Char) :=
  [str ("urgent"), str ("critical"), str ("immediate"), str ("emergency"),
   str ("down"), str ("outage"), str ("cannot access"),
   str ("completely inaccessible"), str ("servers are down")]

/-- `medium_priority_keywords` of `_determine_priority`, in declared order. -/
def medium_priority_keywords : List (List Char) :=
  [str ("help"), str ("support"), str ("issue"), str ("problem"),
   str ("error"), str ("unable")]

/-- `EmailClassifier._determine_priority`: scan the high-priority list first,
then the medium-priority list, else low. -/
def determine_priority (subject body : List Char) : List Char :=
  let text := emailText subject body
  match high_priority_keywords.find? (fun k => containsSub k text) with
  | some _ => str ("high")
  | none =>
    match medium_priority_keywords.find? (fun k => containsSub k text) with
    | some _ => str ("medium")
    | none => str ("low")

/-- `"; ".join(parts)` style separator join. -/
def joinSep (sep : List Char) : List (List Char) → List Char
  | [] => []
  | [x] => x
  | x :: y :: rest => x ++ sep ++ joinSep sep (y :: rest)

/-- `EmailClassifier._generate_reasoning`. -/
def generate_reasoning (category priority subject body : List Char) : List Char :=
  let text := emailText subject body
  let parts :=
    (if containsSub (str ("error")) text || containsSub (str ("issue")) text
        || containsSub (str ("problem")) text
     then [str ("Contains technical issue keywords")] else [])
    ++ (if containsSub (str ("billing")) text || containsSub (str ("charge")) text
        || containsSub (str ("payment")) text
        then [str ("Contains billing-related terms")] else [])
    ++ (if containsSub (str ("account")) text || containsSub (str ("verification")) text
        || containsSub (str ("login")) text
        then [str ("Contains account-related terms")] else [])
    ++ (if containsSub (str ("api")) text || containsSub (str ("integration")) text
        then [str ("Contains integration-related terms")] else [])
    ++ (if priority == str ("high") then [str ("Contains urgent/critical keywords")]
        else if priority == str ("medium") then [str ("Contains support-related keywords")]
        else [])
  let parts2 :=
    if parts.isEmpty then [str ("General inquiry based on content analysis")] else parts
  str ("Classified as ") ++ category ++ str (" with ") ++ priority
    ++ str (" priority. ") ++ joinSep (str ("; ")) parts2 ++ str (".")

/-- `EmailClassifier._classify_rule_based`: the returned Python dict, as an
association list in insertion order. The `sender` argument is taken but,
as in the source, unused. -/
def classify_rule_based (sender subject body : List Char) :
    List (List Char × List Char) :=
  let category := determine_category subject body
  let priority := determine_priority subject body
  let reasoning := generate_reasoning category priority subject body
  [(str ("category"), category), (str ("priority"), priority),
   (str ("reasoning"), reasoning)]

/-- Outcome of the `requests.post` call in `_classify_with_llama` when no
transport exception was raised: HTTP status code and the `response` field of
the returned JSON (the requests/JSON transport itself is an external
collaborator). -/
structure HttpResp where
  status : Nat
  response : List Char

/-- Index of the first occurrence of a character (Python `str.find`,
with `none` for -1). -/
def firstIdx (c : Char) : List Char → Option Nat
  | [] => none
  | a :: as => if a == c then some 0 else (firstIdx c as).map (· + 1)

/-- Index of the last occurrence of a character (Python `str.rfind`,
with `none` for -1). -/
def lastIdx (c : Char) (l : List Char) : Option Nat :=
  (firstIdx c l.reverse).map (fun i => l.length - 1 - i)

/-- The JSON-extraction slice of `_classify_with_llama`:
`start_idx = response_text.find(123.chr)`, `end_idx = response_text.rfind(125.chr) + 1`,
and the slice `response_text[start_idx:end_idx]` when
`start_idx != -1 and end_idx > start_idx`. -/
def extractJsonSlice (text : List Char) : Option (List Char) :=
  match firstIdx '\x7b' text, lastIdx '\x7d' text with
  | some s, some e => if s < e + 1 then some ((text.drop s).take (e + 1 - s)) else none
  | _, _ => none

/-- `all(key in classification for key in [...])` membership test on the
parsed JSON object (an association list). -/
def hasKey (o : List (List Char × List Char)) (k : List Char) : Bool :=
  o.any (fun p => p.1 == k)

/-- `EmailClassifier._classify_with_llama`, from the point where the
transport outcome is known. `jsonLoads` abstracts the stdlib `json.loads`
(returning `none` on `JSONDecodeError`); `transport` is `Except.error` when
`requests.post` raised a `RequestException`. Any path that does not return
a parsed object with the three required keys raises, embedded as
`Except.error`. -/
def classify_with_llama
    (jsonLoads : List Char → Option (List (List Char × List Char)))
    (transport : Except (List Char) HttpResp) :
    Except (List Char) (List (List Char × List Char)) :=
  match transport with
  | .error e => .error (str ("Failed to connect to Ollama: ") ++ e)
  | .ok r =>
    if r.status == 200 then
      match extractJsonSlice r.response with
      | some js =>
        match jsonLoads js with
        | some classification =>
          if hasKey classification (str ("category"))
              && hasKey classification (str ("priority"))
              && hasKey classification (str ("reasoning"))
          then .ok classification
          else .error (str ("Invalid response from Llama API"))
        | none => .error (str ("Invalid response from Llama API"))
      | none => .error (str ("Invalid response from Llama API"))
    else .error (str ("Invalid response from Llama API"))

/-- `EmailClassifier.classify_email`: try the model path, and on any failure
fall back to `_classify_rule_based`. -/
def classify_email
    (jsonLoads : List Char → Option (List (List Char × List Char)))
    (transport : Except (List Char) HttpResp)
    (sender subject body : List Char) : List (List Char × List Char) :=
  match classify_with_llama jsonLoads transport with
  | .ok c => c
  | .error _ => classify_rule_based sender subject body

/-- The sender display name of `ResponseGenerator._generate_template_response`:
`sender.split(64.chr)[0].replace(46.chr, 32.chr).title()`. -/
def pyTitleGo : Bool → List Char → List Char
  | _, [] => []
  | prevCased, c :: cs =>
    if c.isAlpha then
      (if prevCased then c.toLower else c.toUpper) :: pyTitleGo true cs
    else c :: pyTitleGo false cs

/-- Python `str.title()` restricted to ASCII: a letter is uppercased when the
preceding character is not a letter, lowercased otherwise. -/
def pyTitle (l : List Char) : List Char := pyTitleGo false l

/-- `sender.split(64.chr)[0].replace(46.chr, 32.chr).title()`. -/
def sender_name (sender : List Char) : List Char :=
  pyTitle ((sender.takeWhile (fun c => c != '@')).map
    (fun c => if c == '.' then ' ' else c))

/-- Association-list read with default: Python `d.get(k, dflt)` for the
string-valued dicts of `_generate_template_response`. -/
def dictGet (d : List (List Char × List Char)) (k dflt : List Char) : List Char :=
  match d.find? (fun p => p.1 == k) with
  | some p => p.2
  | none => dflt

/-- Association-list read with default for the nested `templates` dict. -/
def dictGetT (d : List (List Char × List (List Char × List Char)))
    (k : List Char) (dflt : List (List Char × List Char)) :
    List (List Char × List Char) :=
  match d.find? (fun p => p.1 == k) with
  | some p => p.2
  | none => dflt

/-- The `greetings` dict of `_generate_template_response`, keyed by tone. -/
def greetings (name : List Char) : List (List Char × List Char) :=
  [(str ("professional"), str ("Dear ") ++ name ++ str (",")),
   (str ("friendly"), str ("Hi ") ++ name ++ str ("!")),
   (str ("formal"), str ("Dear ") ++ name ++ str (",")),
   (str ("casual"), str ("Hey ") ++ name ++ str (","))]

/-- The `templates` dict of `_generate_template_response`:
category → tone → body paragraph. -/
def templates : List (List Char × List (List Char × List Char)) :=
  [ (str ("technical_support"),
      [(str ("professional"), str ("Thank you for reaching out regarding the technical issue you\x27re experiencing. I understand how frustrating this must be. Our technical team will investigate this matter promptly and provide you with a resolution within 24 hours.")),
       (str ("friendly"), str ("Thanks for letting us know about this issue! I totally understand how annoying technical problems can be. Our team is on it and we\x27ll get this sorted out for you ASAP.")),
       (str ("formal"), str ("We acknowledge receipt of your technical support request. Our engineering team will conduct a thorough investigation and provide you with a comprehensive solution within one business day.")),
       (str ("casual"), str ("Got it! Thanks for the heads up about this issue. Our tech team will take a look and get back to you soon."))]),
    (str ("billing"),
      [(str ("professional"), str ("Thank you for contacting us about your billing inquiry. I will personally review your account and ensure any discrepancies are resolved immediately. You can expect a follow-up within 2 business hours.")),
       (str ("friendly"), str ("Thanks for reaching out about your billing question! I\x27ll take a look at your account right away and make sure everything is sorted out for you.")),
       (str ("formal"), str ("We have received your billing inquiry and will conduct a comprehensive review of your account. Any necessary adjustments will be processed within 2 business hours.")),
       (str ("casual"), str ("Hey! Thanks for the message about billing. I\x27ll check your account and fix any issues right away."))]),
    (str ("account"),
      [(str ("professional"), str ("Thank you for your account-related inquiry. I will assist you in resolving this matter promptly. Please allow me to review your account details and provide you with the necessary steps to resolve this issue.")),
       (str ("friendly"), str ("Thanks for reaching out about your account! I\x27m here to help you get everything sorted out. Let me look into this for you.")),
       (str ("formal"), str ("We acknowledge your account verification request. Our security team will review your account and provide the necessary assistance within 4 business hours.")),
       (str ("casual"), str ("Hey! No worries about the account issue - I\x27ll help you get it sorted out quickly."))]),
    (str ("integration"),
      [(str ("professional"), str ("Thank you for your inquiry about our integration capabilities. I would be happy to provide you with detailed information about our API and CRM integration options. Our technical sales team will contact you within 24 hours.")),
       (str ("friendly"), str ("Thanks for asking about our integrations! We have some great API and CRM options that I think you\x27ll love. I\x27ll have our tech team reach out with all the details.")),
       (str ("formal"), str ("We appreciate your interest in our integration solutions. Our technical team will provide you with comprehensive documentation and integration options within one business day.")),
       (str ("casual"), str ("Cool question about integrations! We\x27ve got some solid API options. I\x27ll have the team send over the details soon."))]),
    (str ("general"),
      [(str ("professional"), str ("Thank you for reaching out to us. I have received your inquiry and will ensure you receive the appropriate assistance. Our team will respond with detailed information within 24 hours.")),
       (str ("friendly"), str ("Thanks for getting in touch! I\x27ve got your message and will make sure you get the help you need.")),
       (str ("formal"), str ("We acknowledge receipt of your inquiry. Our customer service team will provide you with a comprehensive response within one business day.")),
       (str ("casual"), str ("Hey! Thanks for reaching out. I\x27ll make sure you get the info you need."))]) ]

/-- The `closings` dict of `_generate_template_response`, keyed by tone. -/
def closings : List (List Char × List Char) :=
  [(str ("professional"), str ("Best regards,\nCustomer Support Team")),
   (str ("friendly"), str ("Cheers!\nThe Support Team")),
   (str ("formal"), str ("Sincerely,\nCustomer Service Department")),
   (str ("casual"), str ("Talk soon!\nSupport Team"))]

/-- `greeting = greetings.get(tone, greetings[...professional...])`. -/
def greetingFor (sender tone : List Char) : List Char :=
  let g := greetings (sender_name sender)
  dictGet g tone (dictGet g (str ("professional")) [])

/-- `content = templates.get(category, templates[...general...]).get(tone,
templates[...general...][...professional...])`. -/
def contentFor (category tone : List Char) : List Char :=
  let generalTable := dictGetT templates (str ("general")) []
  dictGet (dictGetT templates category generalTable) tone
    (dictGet generalTable (str ("professional")) [])

/-- `closing = closings.get(tone, closings[...professional...])`. -/
def closingFor (tone : List Char) : List Char :=
  dictGet closings tone (dictGet closings (str ("professional")) [])

/-- `ResponseGenerator._generate_template_response`: the composed response.
The `subject` and `body` arguments are taken but, as in the source, unused. -/
def generate_template_response (sender subject body category tone : List Char) :
    List Char :=
  greetingFor sender tone ++ str ("\n\n") ++ contentFor category tone
    ++ str ("\n\nIf you have any additional questions, please don\x27t hesitate to reach out.\n\n")
    ++ closingFor tone

/-- Outcome of the `requests.post` call in `_generate_with_llama` when no
transport exception was raised: HTTP status code and the `response` field
(already defaulted to the empty string by `result.get`). -/
structure GenResp where
  status : Nat
  response : List Char

/-- Python `str.strip()` (whitespace on both ends). -/
def pyStrip (l : List Char) : List Char :=
  ((l.dropWhile Char.isWhitespace).reverse.dropWhile Char.isWhitespace).reverse

/-- `ResponseGenerator._generate_with_llama`, from the point where the
transport outcome is known: succeed only on status 200 with nonempty
stripped response text, otherwise raise (embedded as `Except.error`). -/
def generate_with_llama (transport : Except (List Char) GenResp) :
    Except (List Char) (List Char) :=
  match transport with
  | .error e => .error (str ("Failed to connect to Ollama: ") ++ e)
  | .ok r =>
    if r.status == 200 then
      let t := pyStrip r.response
      if t.isEmpty then .error (str ("Invalid response from Llama API")) else .ok t
    else .error (str ("Invalid response from Llama API"))

/-- `ResponseGenerator.generate_response`: try the model path, and on any
failure fall back to `_generate_template_response`. -/
def generate_response (transport : Except (List Char) GenResp)
    (sender subject body category tone : List Char) : List Char :=
  match generate_with_llama transport with
  | .ok t => t
  | .error _ => generate_template_response sender subject body category tone

/-! Helper lemmas about the score fold and the keyword scan. -/

theorem maxScore_cons (p : List Char × Nat) (l : List (List Char × Nat)) :
    maxScore (p :: l) = max p.2 (maxScore l) := rfl

theorem maxScore_eq_zero_of (l : List (List Char × Nat))
    (h : ∀ p ∈ l, p.2 = 0) : maxScore l = 0 := by
  induction l with
  | nil => rfl
  | cons q rest ih =>
    rw [maxScore_cons, h q (List.mem_cons_self q rest),
      ih (fun p hp => h p (List.mem_cons_of_mem q hp))]
    simp

theorem goMax_mem (l : List (List Char × Nat)) :
    ∀ best bestScore, goMax best bestScore l = best
      ∨ goMax best bestScore l ∈ l.map Prod.fst := by
  induction l with
  | nil => intro best bestScore; exact Or.inl rfl
  | cons q rest ih =>
    intro best bestScore
    simp only [goMax, List.map_cons, List.mem_cons]
    by_cases hlt : bestScore < q.2
    · rw [if_pos hlt]
      rcases ih q.1 q.2 with h | h
      · exact Or.inr (Or.inl h)
      · exact Or.inr (Or.inr h)
    · rw [if_neg hlt]
      rcases ih best bestScore with h | h
      · exact Or.inl h
      · exact Or.inr (Or.inr h)

theorem goMax_le (l : List (List Char × Nat)) :
    ∀ best bestScore, maxScore l ≤ bestScore → goMax best bestScore l = best := by
  induction l with
  | nil => intro best bestScore _; rfl
  | cons q rest ih =>
    intro best bestScore h
    rw [maxScore_cons] at h
    simp only [goMax]
    rw [if_neg (by omega : ¬ bestScore < q.2)]
    exact ih best bestScore (by omega)

theorem goMax_gt (l : List (List Char × Nat)) :
    ∀ best bestScore, bestScore < maxScore l →
      l.find? (fun p => decide (maxScore l ≤ p.2))
        = some (goMax best bestScore l, maxScore l) := by
  induction l with
  | nil => intro best bestScore h; simp [maxScore] at h
  | cons q rest ih =>
    intro best bestScore h
    rw [maxScore_cons] at h
    by_cases hq : maxScore rest ≤ q.2
    · have hM : maxScore (q :: rest) = q.2 := by rw [maxScore_cons]; omega
      simp only [hM]
      rw [List.find?_cons_of_pos rest (by simp : (fun p => decide (q.2 ≤ p.2)) q = true)]
      simp only [goMax]
      rw [if_pos (by omega : bestScore < q.2), goMax_le rest q.1 q.2 hq]
    · push_neg at hq
      have hM : maxScore (q :: rest) = maxScore rest := by rw [maxScore_cons]; omega
      simp only [hM]
      rw [List.find?_cons_of_neg rest
        (by simp only [decide_eq_true_eq]; omega :
          ¬ ((fun p => decide (maxScore rest ≤ p.2)) q = true))]
      simp only [goMax]
      by_cases hb : bestScore < q.2
      · rw [if_pos hb]; exact ih q.1 q.2 hq
      · rw [if_neg hb]; exact ih best bestScore (by omega)

theorem pyMaxByVal_mem (l : List (List Char × Nat)) (h : l ≠ []) :
    pyMaxByVal l ∈ l.map Prod.fst := by
  cases l with
  | nil => exact absurd rfl h
  | cons q rest =>
    simp only [pyMaxByVal, List.map_cons, List.mem_cons]
    rcases goMax_mem rest q.1 q.2 with hg | hg
    · exact Or.inl hg
    · exact Or.inr hg

theorem pyMaxByVal_find? (l : List (List Char × Nat)) (h0 : 0 < maxScore l) :
    l.find? (fun p => decide (maxScore l ≤ p.2)) = some (pyMaxByVal l, maxScore l) := by
  cases l with
  | nil => simp [maxScore] at h0
  | cons q rest =>
    by_cases hq : maxScore rest ≤ q.2
    · have hM : maxScore (q :: rest) = q.2 := by rw [maxScore_cons]; omega
      simp only [hM]
      rw [List.find?_cons_of_pos rest (by simp : (fun p => decide (q.2 ≤ p.2)) q = true)]
      simp only [pyMaxByVal]
      rw [goMax_le rest q.1 q.2 hq]
    · push_neg at hq
      have hM : maxScore (q :: rest) = maxScore rest := by rw [maxScore_cons]; omega
      simp only [hM]
      rw [List.find?_cons_of_neg rest
        (by simp only [decide_eq_true_eq]; omega :
          ¬ ((fun p => decide (maxScore rest ≤ p.2)) q = true))]
      simp only [pyMaxByVal]
      exact goMax_gt rest q.1 q.2 hq

/-- C4: for every subject and body whose lowercased concatenation contains
the substring "urgent" anywhere, the deterministic classifier returns
priority high, regardless of which category keywords are present. -/
theorem claim_C4 (subject body : List Char)
    (h : containsSub (str ("urgent")) (emailText subject body) = true) :
    determine_priority subject body = str ("high") := by
  simp only [determine_priority, high_priority_keywords]
  rw [List.find?_cons_of_pos (p := fun k => containsSub k (emailText subject body)) _ h]

/-- Witness for C4 at subject "Urgent", empty body. -/
theorem claim_C4_witness : determine_priority (str ("Urgent")) [] = str ("high") :=
  claim_C4 (str ("Urgent")) [] (by decide)

/-- C9: the rule-based classification is independent of the sender: for any
two sender strings and the same subject and body, the fallback classifier
returns identical category, priority, and reasoning. -/
theorem claim_C9 (s1 s2 subject body : List Char) :
    classify_rule_based s1 subject body = classify_rule_based s2 subject body := rfl

/-- C6: the classify and generate entry points attempt the model call first
and, on any model-call failure, return exactly the result of the
deterministic fallback path; the fallback itself is a total function of its
string inputs, so a classification or response is always produced. -/
theorem claim_C6 (jsonLoads : List Char → Option (List (List Char × List Char)))
    (t : Except (List Char) HttpResp) (gt : Except (List Char) GenResp)
    (sender subject body category tone e e2 : List Char) :
    (classify_with_llama jsonLoads t = Except.error e →
      classify_email jsonLoads t sender subject body
        = classify_rule_based sender subject body)
    ∧ (generate_with_llama gt = Except.error e2 →
      generate_response gt sender subject body category tone
        = generate_template_response sender subject body category tone) := by
  constructor
  · intro h; simp only [classify_email, h]
  · intro h; simp only [generate_response, h]

/-- Witness for C6 on a transport failure with all-empty string inputs. -/
theorem claim_C6_witness :
    classify_email (fun _ => none) (Except.error (str ("boom"))) [] [] []
      = classify_rule_based [] [] []
    ∧ generate_response (Except.error (str ("boom"))) [] [] [] [] []
      = generate_template_response [] [] [] [] [] := by
  have h := claim_C6 (fun _ => none) (Except.error (str ("boom")))
    (Except.error (str ("boom"))) [] [] [] [] []
    (str ("Failed to connect to Ollama: ") ++ str ("boom"))
    (str ("Failed to connect to Ollama: ") ++ str ("boom"))
  exact ⟨h.1 rfl, h.2 rfl⟩

/-- C10: whenever the model call returns HTTP 200 and its response text
contains a parseable JSON slice (first opening brace through last closing
brace) whose parsed object has the keys category, priority, and reasoning,
the classify entry point returns that parsed object verbatim — the values of
category and priority are not checked against the fixed vocabularies. -/
theorem claim_C10 (jsonLoads : List Char → Option (List (List Char × List Char)))
    (r : HttpResp) (sender subject body js : List Char)
    (o : List (List Char × List Char))
    (hstatus : r.status = 200)
    (hslice : extractJsonSlice r.response = some js)
    (hjson : jsonLoads js = some o)
    (hcat : hasKey o (str ("category")) = true)
    (hpri : hasKey o (str ("priority")) = true)
    (hrea : hasKey o (str ("reasoning")) = true) :
    classify_email jsonLoads (Except.ok r) sender subject body = o := by
  simp [classify_email, classify_with_llama, hstatus, hslice, hjson, hcat, hpri, hrea]

/-- Witness for C10: a parsed object whose category and priority lie outside
the fixed vocabularies is still returned verbatim. -/
theorem claim_C10_witness :
    classify_email
      (fun _ => some [(str ("category"), str ("banana")),
        (str ("priority"), str ("zebra")), (str ("reasoning"), str ("because"))])
      (Except.ok (HttpResp.mk 200 (str ("abc\x7bstuff\x7ddef")))) [] [] []
      = [(str ("category"), str ("banana")), (str ("priority"), str ("zebra")),
         (str ("reasoning"), str ("because"))] :=
  claim_C10 _ (HttpResp.mk 200 (str ("abc\x7bstuff\x7ddef"))) [] [] []
    (str ("\x7bstuff\x7d")) _ rfl (by decide) rfl (by decide) (by decide) (by decide)

/-- C2: for every sender, subject, and body string, the rule-based
classifier's result carries a category in the fixed five-value set and a
priority in the fixed three-value set; no other values ever appear. -/
theorem claim_C2 (sender subject body : List Char) :
    determine_category subject body
        ∈ [str ("technical_support"), str ("billing"), str ("account"),
           str ("integration"), str ("general")]
    ∧ determine_priority subject body ∈ [str ("high"), str ("medium"), str ("low")]
    ∧ classify_rule_based sender subject body
      = [(str ("category"), determine_category subject body),
         (str ("priority"), determine_priority subject body),
         (str ("reasoning"), generate_reasoning (determine_category subject body)
            (determine_priority subject body) subject body)] := by
  refine ⟨?_, ?_, rfl⟩
  · by_cases h : 0 < maxScore (categoryScores subject body)
    · have hmem := pyMaxByVal_mem (categoryScores subject body)
        (by simp [categoryScores, categories])
      have hmap : (categoryScores subject body).map Prod.fst
          = [str ("technical_support"), str ("billing"), str ("account"),
             str ("integration"), str ("general")] := by
        simp [categoryScores, categories]
      rw [hmap] at hmem
      simpa only [determine_category, if_pos h] using hmem
    · simp only [determine_category, if_neg h]
      simp
  · simp only [determine_priority]
    cases h1 : List.find? (fun k => containsSub k (emailText subject body))
        high_priority_keywords with
    | some k => simp
    | none =>
      cases h2 : List.find? (fun k => containsSub k (emailText subject body))
          medium_priority_keywords with
      | some k => simp
      | none => simp

/-- C3: category selection picks the category whose keyword-hit count is
strictly highest; when two or more categories share the maximal nonzero
count, the winner is the category declared earliest in table iteration
order (the first score entry attaining the maximum); if all counts are zero
the result is general. -/
theorem claim_C3 (subject body : List Char) :
    ((∀ p ∈ categoryScores subject body, p.2 = 0) →
      determine_category subject body = str ("general"))
    ∧ (0 < maxScore (categoryScores subject body) →
      (categoryScores subject body).find?
          (fun p => decide (maxScore (categoryScores subject body) ≤ p.2))
        = some (determine_category subject body,
            maxScore (categoryScores subject body))) := by
  constructor
  · intro h
    have h0 : maxScore (categoryScores subject body) = 0 := maxScore_eq_zero_of _ h
    simp only [determine_category, h0]
    simp
  · intro h
    have hfind := pyMaxByVal_find? (categoryScores subject body) h
    simp only [determine_category, if_pos h]
    exact hfind

/-- Witness for C3 on a tie: "error" (technical_support) and "account"
(account) each score one hit; the earliest-declared category wins. -/
theorem claim_C3_witness :
    (categoryScores (str ("error")) (str ("account"))).find?
        (fun p => decide (maxScore (categoryScores (str ("error")) (str ("account"))) ≤ p.2))
      = some (determine_category (str ("error")) (str ("account")),
          maxScore (categoryScores (str ("error")) (str ("account")))) :=
  (claim_C3 (str ("error")) (str ("account"))).2 (by decide)

/-- Counterexample to C5: with subject empty and body "urgent", no category
keyword table has any substring match, yet the priority is high, not low. -/
theorem claim_C5_counterexample :
    (∀ c ∈ categories, ∀ k ∈ c.2, containsSub k (emailText [] (str ("urgent"))) = false)
    ∧ determine_priority [] (str ("urgent")) = str ("high")
    ∧ str ("high") ≠ str ("low") := by
  refine ⟨by decide, by decide, by decide⟩

/-- C5 as amended: when no category keyword matches, the category is general;
priority can never be medium in that situation (every medium-priority keyword
is also a category keyword), and is low provided no high-priority keyword
matches either. -/
theorem claim_C5_amended (subject body : List Char)
    (hcat : ∀ c ∈ categories, ∀ k ∈ c.2, containsSub k (emailText subject body) = false) :
    determine_category subject body = str ("general")
    ∧ determine_priority subject body ≠ str ("medium")
    ∧ ((∀ k ∈ high_priority_keywords, containsSub k (emailText subject body) = false) →
      determine_priority subject body = str ("low")) := by
  have hall : ∀ k, (∃ c ∈ categories, k ∈ c.2) →
      containsSub k (emailText subject body) = false := by
    intro k hk
    obtain ⟨c, hc, hkc⟩ := hk
    exact hcat c hc k hkc
  have hscore : ∀ p ∈ categoryScores subject body, p.2 = 0 := by
    intro p hp
    simp only [categoryScores, List.mem_map] at hp
    obtain ⟨c, hc, rfl⟩ := hp
    simp only [scoreOf, List.length_eq_zero, List.filter_eq_nil_iff]
    intro k hk
    simp [hcat c hc k hk]
  have hgen : determine_category subject body = str ("general") := by
    have h0 := maxScore_eq_zero_of _ hscore
    simp only [determine_category, h0]
    simp
  have h_help := hall (str ("help")) (by decide)
  have h_support := hall (str ("support")) (by decide)
  have h_issue := hall (str ("issue")) (by decide)
  have h_problem := hall (str ("problem")) (by decide)
  have h_error := hall (str ("error")) (by decide)
  have h_unable := hall (str ("unable")) (by decide)
  have hmed : List.find? (fun k => containsSub k (emailText subject body))
      medium_priority_keywords = none := by
    simp [medium_priority_keywords, List.find?, h_help, h_support, h_issue,
      h_problem, h_error, h_unable]
  refine ⟨hgen, ?_, ?_⟩
  · simp only [determine_priority]
    cases h1 : List.find? (fun k => containsSub k (emailText subject body))
        high_priority_keywords with
    | some k => exact (by decide : str ("high") ≠ str ("medium"))
    | none =>
      rw [hmed]
      exact (by decide : str ("low") ≠ str ("medium"))
  · intro hh
    have hhigh : List.find? (fun k => containsSub k (emailText subject body))
        high_priority_keywords = none := by
      rw [List.find?_eq_none]
      intro k hk
      simp [hh k hk]
    simp only [determine_priority, hhigh, hmed]

/-- Witness for C5 as amended at subject empty, body "xyz". -/
theorem claim_C5_witness :
    determine_category [] (str ("xyz")) = str ("general")
    ∧ determine_priority [] (str ("xyz")) = str ("low") := by
  have h := claim_C5_amended [] (str ("xyz")) (by decide)
  exact ⟨h.1, h.2.2 (by decide)⟩

/-- Counterexample to C1: for subject "Servers are down" and body
"Our production servers are down, urgent please help", the deterministic
classifier does not return category technical_support — "down", "urgent" and
"servers are down" are priority keywords, not category keywords, and the
only category keyword hit is "help" (general). -/
theorem claim_C1_counterexample :
    determine_category (str ("Servers are down"))
        (str ("Our production servers are down, urgent please help"))
      ≠ str ("technical_support") := by decide

/-- C1 as amended: for that email the deterministic classifier returns
category general and priority high. -/
theorem claim_C1_amended :
    determine_category (str ("Servers are down"))
        (str ("Our production servers are down, urgent please help"))
      = str ("general")
    ∧ determine_priority (str ("Servers are down"))
        (str ("Our production servers are down, urgent please help"))
      = str ("high") := by
  refine ⟨by decide, by decide⟩

/-- Helper: `takeWhile` keeps the whole list when every element satisfies
the predicate (the no-at-sign case of the sender split). -/
theorem takeWhile_all {p : Char → Bool} :
    ∀ l : List Char, (∀ c ∈ l, p c = true) → l.takeWhile p = l := by
  intro l h
  induction l with
  | nil => rfl
  | cons a as ih =>
    rw [List.takeWhile_cons_of_pos (h a (List.mem_cons_self a as)),
      ih (fun c hc => h c (List.mem_cons_of_mem a hc))]

/-- C8: the display name is the part of the sender before the first at sign
(the whole string when none is present), with dots replaced by spaces and
title-casing applied per word; "jane.doe@example.com" yields "Jane Doe" and
"nouser" yields "Nouser". -/
theorem claim_C8 :
    sender_name (str ("jane.doe@example.com")) = str ("Jane Doe")
    ∧ sender_name (str ("nouser")) = str ("Nouser")
    ∧ ∀ sender : List Char, (∀ c ∈ sender, c ≠ '@') →
      sender_name sender
        = pyTitle (sender.map (fun c => if c == '.' then ' ' else c)) := by
  refine ⟨by decide, by decide, ?_⟩
  intro sender h
  unfold sender_name
  rw [takeWhile_all sender (fun c hc => by simp [h c hc])]

/-- Witness for C8: a sender with no at sign is used whole. -/
theorem claim_C8_witness :
    sender_name (str ("abc")) = pyTitle ((str ("abc")).map
      (fun c => if c == '.' then ' ' else c)) :=
  claim_C8.2.2 (str ("abc")) (by decide)

/-- Helper: a tone/category lookup misses when the key is outside the
table's key set. -/
theorem find?_key_eq_none (d : List (List Char × List Char)) (k : List Char)
    (keys : List (List Char)) (hd : ∀ p ∈ d, p.1 ∈ keys) (h : k ∉ keys) :
    d.find? (fun p => p.1 == k) = none := by
  rw [List.find?_eq_none]
  intro p hp
  simp only [beq_iff_eq]
  intro heq
  exact h (heq ▸ hd p hp)

/-- Helper: the greeting table is keyed exactly by the four tones. -/
theorem greetings_keys (name : List Char) :
    ∀ p ∈ greetings name,
      p.1 ∈ [str ("professional"), str ("friendly"), str ("formal"), str ("casual")] := by
  intro p hp
  simp only [greetings, List.mem_cons, List.not_mem_nil, or_false] at hp
  rcases hp with rfl | rfl | rfl | rfl
  all_goals simp

/-- Helper: whatever category is requested, the selected body table is keyed
by the four tones (it is either a declared category's table or the general
table). -/
theorem catTable_keys (category : List Char) :
    ∀ p ∈ dictGetT templates category (dictGetT templates (str ("general")) []),
      p.1 ∈ [str ("professional"), str ("friendly"), str ("formal"), str ("casual")] := by
  have hgen : ∀ p ∈ dictGetT templates (str ("general")) [],
      p.1 ∈ [str ("professional"), str ("friendly"), str ("formal"), str ("casual")] := by
    decide
  have htmpl : ∀ q ∈ templates, ∀ p ∈ q.2,
      p.1 ∈ [str ("professional"), str ("friendly"), str ("formal"), str ("casual")] := by
    decide
  intro p hp
  cases hfind : templates.find? (fun q => q.1 == category) with
  | none =>
    have heq : dictGetT templates category (dictGetT templates (str ("general")) [])
        = dictGetT templates (str ("general")) [] := by
      simp only [dictGetT, hfind]
    rw [heq] at hp
    exact hgen p hp
  | some q =>
    have heq : dictGetT templates category (dictGetT templates (str ("general")) [])
        = q.2 := by
      simp only [dictGetT, hfind]
    rw [heq] at hp
    exact htmpl q (List.mem_of_find?_eq_some hfind) p hp

/-- C7: in the template response builder, the greeting and closing are
selected by tone with professional as the default for an unrecognized tone;
the body paragraph is selected by category and tone, an unrecognized
category defaulting to the general table and an unrecognized tone falling
back to the general professional body. -/
theorem claim_C7 (sender category tone : List Char) :
    (tone ∉ [str ("professional"), str ("friendly"), str ("formal"), str ("casual")] →
      greetingFor sender tone = greetingFor sender (str ("professional"))
      ∧ closingFor tone = closingFor (str ("professional"))
      ∧ contentFor category tone = contentFor (str ("general")) (str ("professional")))
    ∧ (category ∉ [str ("technical_support"), str ("billing"), str ("account"),
        str ("integration"), str ("general")] →
      contentFor category tone = contentFor (str ("general")) tone) := by
  constructor
  · intro htone
    have hfg : (greetings (sender_name sender)).find? (fun p => p.1 == tone) = none :=
      find?_key_eq_none _ tone _ (greetings_keys (sender_name sender)) htone
    have hfc : closings.find? (fun p => p.1 == tone) = none :=
      find?_key_eq_none _ tone _ (by decide) htone
    have hft : (dictGetT templates category
          (dictGetT templates (str ("general")) [])).find?
        (fun p => p.1 == tone) = none :=
      find?_key_eq_none _ tone _ (catTable_keys category) htone
    refine ⟨?_, ?_, ?_⟩
    · have hR : greetingFor sender (str ("professional"))
          = dictGet (greetings (sender_name sender)) (str ("professional")) [] := rfl
      rw [hR]
      simp only [greetingFor, dictGet, hfg]
    · have hR : closingFor (str ("professional"))
          = dictGet closings (str ("professional")) [] := rfl
      rw [hR]
      simp only [closingFor, dictGet, hfc]
    · have hR : contentFor (str ("general")) (str ("professional"))
          = dictGet (dictGetT templates (str ("general")) [])
              (str ("professional")) [] := rfl
      rw [hR]
      simp only [contentFor, dictGet, hft]
  · intro hcat
    have hfive : ∀ q ∈ templates, q.1 ∈ [str ("technical_support"), str ("billing"),
        str ("account"), str ("integration"), str ("general")] := by decide
    have hfindC : templates.find? (fun q => q.1 == category) = none := by
      rw [List.find?_eq_none]
      intro q hq
      simp only [beq_iff_eq]
      intro heq
      exact hcat (heq ▸ hfive q hq)
    have hCT : dictGetT templates category (dictGetT templates (str ("general")) [])
        = dictGetT templates (str ("general")) [] := by
      simp only [dictGetT, hfindC]
    have hXY : dictGetT templates (str ("general"))
          (dictGetT templates (str ("general")) [])
        = dictGetT templates (str ("general")) [] := by rfl
    simp only [contentFor, hCT, hXY]

/-- Witness for C7 with unrecognized tone "sassy" and unrecognized category
"spam". -/
theorem claim_C7_witness :
    (greetingFor [] (str ("sassy")) = greetingFor [] (str ("professional"))
      ∧ closingFor (str ("sassy")) = closingFor (str ("professional"))
      ∧ contentFor (str ("spam")) (str ("sassy"))
        = contentFor (str ("general")) (str ("professional")))
    ∧ contentFor (str ("spam")) (str ("sassy"))
      = contentFor (str ("general")) (str ("sassy")) := by
  have h := claim_C7 [] (str ("spam")) (str ("sassy"))
  exact ⟨h.1 (by decide), h.2 (by decide)⟩
